/-
Verification of the glass TUI asynchronous coordination and
streaming-event reduction subsystem.

The definitions below are a shallow embedding of the Rust sources under
src/tui/src/: `util.rs` (word wrapping), `app/state.rs` (the pure state
container), `app/analysis.rs` (the activity reducer), `app/background.rs`
(the background task dispatcher / SSE stream task) and `app/mod.rs`
(the App coordinator).  Rust `String` is modelled as Lean `String`; the
Rust `str::len` (UTF-8 byte length), `split_whitespace`, `lines`, `trim`
and substring containment are re-implemented structurally over the
underlying character list so that all definitions evaluate by kernel
reduction.
-/
import Mathlib

namespace Glass

/-! ## String primitives (Rust `str` operations, re-implemented structurally) -/

/-- UTF-8 byte length of a character list (Rust `str::len` counts bytes). -/
def utf8LenList : List Char → Nat
  | [] => 0
  | c :: cs => c.utf8Size + utf8LenList cs

/-- Rust `String::len` / `str::len`: the UTF-8 byte length. -/
def rustLen (s : String) : Nat := utf8LenList s.data

/-- Accumulator-style splitter behind `rustSplitWhitespace`.  `acc` holds the
characters of the current word in reverse order. -/
def splitWhitespaceAux : List Char → List Char → List String
  | [], acc => if acc.isEmpty then [] else [String.mk acc.reverse]
  | c :: cs, acc =>
    if c.isWhitespace then
      if acc.isEmpty then splitWhitespaceAux cs []
      else String.mk acc.reverse :: splitWhitespaceAux cs []
    else splitWhitespaceAux cs (c :: acc)

/-- Rust `str::split_whitespace`: splits on runs of whitespace, yields no
empty words. -/
def rustSplitWhitespace (s : String) : List String :=
  splitWhitespaceAux s.data []

/-- Rust `str::trim`: strip whitespace from both ends. -/
def rustTrim (s : String) : String :=
  String.mk (((s.data.dropWhile Char.isWhitespace).reverse.dropWhile Char.isWhitespace).reverse)

/-- Strip one trailing carriage return from a reversed character
accumulator (Rust `str::lines` treats `\r\n` as a line ending). -/
def stripCRrev : List Char → List Char
  | '\r' :: rest => rest
  | acc => acc

/-- Accumulator-style splitter behind `rustLines`. -/
def linesAux : List Char → List Char → List String
  | [], acc => if acc.isEmpty then [] else [String.mk acc.reverse]
  | '\n' :: cs, acc => String.mk (stripCRrev acc).reverse :: linesAux cs []
  | c :: cs, acc => linesAux cs (c :: acc)

/-- Rust `str::lines`: split at `\n` or `\r\n`; the final line ending is
optional and produces no trailing empty line. -/
def rustLines (s : String) : List String := linesAux s.data []

/-- Whether `needle` occurs as a contiguous sublist of the first argument. -/
def hasSublist (needle : List Char) : List Char → Bool
  | [] => needle.isEmpty
  | c :: rest => needle.isPrefixOf (c :: rest) || hasSublist needle rest

/-- Rust `str::contains` for a string pattern. -/
def rustContainsStr (s pat : String) : Bool := hasSublist pat.data s.data

/-- Rust `str::contains('\n')` — whether the string holds a newline. -/
def rustContainsNewline (s : String) : Bool := s.data.contains '\n'

/-! ## `util.rs` -/

/-- The loop body of `word_wrap` (src/tui/src/util.rs:14-53): fold over the
whitespace-split words with the current line as accumulator; emits finished
lines in order.  The empty accumulator plays the role of Rust
`current_line.is_empty()`. -/
def wordWrapCore (width : Nat) : List String → String → List String
  | [], cur => if cur.isEmpty then [] else [cur]
  | w :: ws, cur =>
    if cur.isEmpty then
      if rustLen w > width then w :: wordWrapCore width ws ""
      else wordWrapCore width ws w
    else if rustLen cur + 1 + rustLen w ≤ width then
      wordWrapCore width ws (cur ++ " " ++ w)
    else
      if rustLen w > width then cur :: w :: wordWrapCore width ws ""
      else cur :: wordWrapCore width ws w

/-- `word_wrap` from src/tui/src/util.rs: greedy word wrapping; a run of
words is packed while `len(line) + 1 + len(word) <= width`; an over-long
word goes on a line of its own; the result is never the empty list. -/
def word_wrap (s : String) (width : Nat) : List String :=
  let lines := wordWrapCore width (rustSplitWhitespace s) ""
  if lines.isEmpty then [""] else lines

/-! ## `serde_json::Value` (only as far as the reducer consumes it) -/

/-- A JSON value, mirroring `serde_json::Value` as consumed by the
`ToolStart` arm of the reducer (`as_object`, `Value::String`,
`Value::to_string`). -/
inductive JsonValue where
  | null
  | bool (b : Bool)
  | num (n : Int)
  | str (s : String)
  | arr (xs : List JsonValue)
  | obj (fields : List (String × JsonValue))

mutual

/-- `serde_json::Value::to_string` (display serialization); its exact output
is not load-bearing for any claim, but the branching of the `ToolStart` arm
around it is modelled faithfully. -/
def jsonToString : JsonValue → String
  | .null => "null"
  | .bool b => if b then "true" else "false"
  | .num n => toString n
  | .str s => "\"" ++ s ++ "\""
  | .arr xs => "[" ++ String.intercalate "," (jsonListToString xs) ++ "]"
  | .obj fs => "\x7b" ++ String.intercalate "," (jsonFieldsToString fs) ++ "\x7d"

def jsonListToString : List JsonValue → List String
  | [] => []
  | x :: xs => jsonToString x :: jsonListToString xs

def jsonFieldsToString : List (String × JsonValue) → List String
  | [] => []
  | (k, v) :: xs => ("\"" ++ k ++ "\":" ++ jsonToString v) :: jsonFieldsToString xs

end

/-- `Value::as_object`: the field list of an object, `none` otherwise. -/
def JsonValue.asObject : JsonValue → Option (List (String × JsonValue))
  | .obj fs => some fs
  | _ => none

/-! ## `api/types.rs` — the data model -/

/-- `Issue` (list-row projection) from src/tui/src/api/types.rs. -/
structure Issue where
  id : String
  source_type : String
  title : String
  short_id : String
  status : String
  event_count : Nat
  user_count : Nat
  first_seen : String
  last_seen : String
  updated_at : String
deriving DecidableEq

/-- `ListIssuesResponse` from src/tui/src/api/types.rs. -/
structure ListIssuesResponse where
  issues : List Issue
  total : Nat
  limit : Nat
  offset : Nat
deriving DecidableEq

/-- `IssueState` — the closed tagged union from src/tui/src/api/types.rs. -/
inductive IssueState where
  | pending
  | analyzing (analysis_session_id : String)
  | pendingApproval (analysis_session_id : String) (proposal : String)
  | inProgress (analysis_session_id implementation_session_id worktree_path worktree_branch : String)
  | pendingReview (analysis_session_id implementation_session_id worktree_path worktree_branch : String)
  | error (previous_status session_id error : String)
deriving DecidableEq

/-- `IssueMetadata` from src/tui/src/api/types.rs. -/
structure IssueMetadata where
  error_type : Option String
  value : Option String
  filename : Option String
  function : Option String
deriving DecidableEq

/-- `ContextLine` from src/tui/src/api/types.rs. -/
structure ContextLine where
  line : Nat
  code : String
  current : Bool
deriving DecidableEq

/-- `StackFrame` from src/tui/src/api/types.rs. -/
structure StackFrame where
  filename : Option String
  function : Option String
  lineno : Option Nat
  colno : Option Nat
  context : Option (List ContextLine)
deriving DecidableEq

/-- `Stacktrace` from src/tui/src/api/types.rs. -/
structure Stacktrace where
  frames : List StackFrame
deriving DecidableEq

/-- `Exception` from src/tui/src/api/types.rs. -/
structure Exception where
  error_type : String
  value : Option String
  stacktrace : Option Stacktrace
deriving DecidableEq

/-- `BreadcrumbData` from src/tui/src/api/types.rs. -/
structure BreadcrumbData where
  url : Option String
  status_code : Option Int
  http_method : Option String
  reason : Option String
deriving DecidableEq

/-- `Breadcrumb` from src/tui/src/api/types.rs. -/
structure Breadcrumb where
  crumb_type : Option String
  category : Option String
  message : Option String
  timestamp : Option String
  data : Option BreadcrumbData
deriving DecidableEq

/-- `RequestInfo` from src/tui/src/api/types.rs. -/
structure RequestInfo where
  method : String
  url : String
  query : Option (List (String × String))
  data : Option JsonValue

/-- `GeoInfo` from src/tui/src/api/types.rs. -/
structure GeoInfo where
  country_code : Option String
  city : Option String
  region : Option String
deriving DecidableEq

/-- `UserInfo` from src/tui/src/api/types.rs. -/
structure UserInfo where
  id : Option String
  email : Option String
  ip_address : Option String
  username : Option String
  geo : Option GeoInfo
deriving DecidableEq

/-- `BrowserContext` from src/tui/src/api/types.rs. -/
structure BrowserContext where
  name : Option String
  version : Option String
deriving DecidableEq

/-- `OsContext` from src/tui/src/api/types.rs. -/
structure OsContext where
  name : Option String
  version : Option String
deriving DecidableEq

/-- `DeviceContext` from src/tui/src/api/types.rs. -/
structure DeviceContext where
  family : Option String
  model : Option String
  brand : Option String
deriving DecidableEq

/-- `RuntimeContext` from src/tui/src/api/types.rs. -/
structure RuntimeContext where
  name : Option String
  version : Option String
deriving DecidableEq

/-- `ContextInfo` from src/tui/src/api/types.rs. -/
structure ContextInfo where
  browser : Option BrowserContext
  os : Option OsContext
  device : Option DeviceContext
  runtime : Option RuntimeContext
deriving DecidableEq

/-- `IssueSource` from src/tui/src/api/types.rs (tags modelled as an
association list in place of `HashMap<String, String>`). -/
structure IssueSource where
  title : Option String
  short_id : Option String
  culprit : Option String
  event_count : Option Nat
  user_count : Option Nat
  first_seen : Option String
  last_seen : Option String
  metadata : Option IssueMetadata
  exceptions : Option (List Exception)
  breadcrumbs : Option (List Breadcrumb)
  environment : Option String
  release : Option String
  tags : Option (List (String × String))
  request : Option RequestInfo
  user : Option UserInfo
  contexts : Option ContextInfo

/-- `IssueDetail` from src/tui/src/api/types.rs. -/
structure IssueDetail where
  id : String
  source_type : String
  status : String
  source : IssueSource
  state : IssueState
  created_at : String
  updated_at : String

/-- An `IssueSource` with every optional field absent (used for concrete
test values; the reducer never reads the source payload). -/
def emptySource : IssueSource :=
  ⟨none, none, none, none, none, none, none, none, none, none, none, none,
   none, none, none, none⟩

/-- `AnalysisEvent` — the SSE stream event set.  The enum declaration itself
is not under src/ (only its callers are); the variants and their fields are
reconstructed from the exhaustive match in src/tui/src/app/analysis.rs and
the spec event list (`Backfill`, `Thinking`, `TextDelta`, `ToolStart`,
`ToolOutput`, `ToolEnd`, `Complete`, `Error`). -/
inductive AnalysisEvent where
  | backfill (events : List AnalysisEvent)
  | thinking
  | textDelta (delta : String)
  | toolStart (tool : String) (args : JsonValue)
  | toolOutput (output : String)
  | toolEnd (tool : String) (is_error : Bool)
  | complete (proposal : String)
  | error (message : String)

/-! ## `app/state.rs` — the pure state container -/

/-- `Screen` from src/tui/src/app/state.rs. -/
inductive Screen where
  | list
  | detail
  | analysis
  | proposal
deriving DecidableEq

/-- `ActivityStyle` from src/tui/src/app/state.rs. -/
inductive ActivityStyle where
  | normal
  | dimmed
  | tool
  | thinking
  | error
  | success
deriving DecidableEq

/-- `ActivityLine` from src/tui/src/app/state.rs. -/
structure ActivityLine where
  icon : String
  text : String
  style : ActivityStyle
deriving DecidableEq

/-- `AppState` from src/tui/src/app/state.rs (terminal dimensions are
modelled as `Nat`; in the source they are `u16` values that are only
stored and read, never arithmetically wrapped). -/
structure AppState where
  screen : Screen
  issues : List Issue
  selected_index : Nat
  current_issue : Option IssueDetail
  detail_scroll : Nat
  analysis_lines : List ActivityLine
  analysis_scroll : Nat
  is_streaming_analysis : Bool
  current_text_buffer : String
  proposal_scroll : Nat
  is_loading : Bool
  is_refreshing : Bool
  is_refreshing_detail : Bool
  error : Option String
  terminal_width : Nat
  terminal_height : Nat
  should_quit : Bool

/-- `AppState::default` from src/tui/src/app/state.rs. -/
def AppState.default : AppState where
  screen := .list
  issues := []
  selected_index := 0
  current_issue := none
  detail_scroll := 0
  analysis_lines := []
  analysis_scroll := 0
  is_streaming_analysis := false
  current_text_buffer := ""
  proposal_scroll := 0
  is_loading := false
  is_refreshing := false
  is_refreshing_detail := false
  error := none
  terminal_width := 80
  terminal_height := 24
  should_quit := false

/-- `AppState::clamp_selection` from src/tui/src/app/state.rs. -/
def AppState.clamp_selection (s : AppState) : AppState :=
  if ¬s.issues.isEmpty ∧ s.selected_index ≥ s.issues.length then
    { s with selected_index := s.issues.length - 1 }
  else s

/-- `AppState.selected_issue_id` from src/tui/src/app/state.rs:
checked lookup `issues.get(selected_index).map(|i| i.id)`. -/
def AppState.selected_issue_id (s : AppState) : Option String :=
  (s.issues.get? s.selected_index).map Issue.id

/-- `AppState::reset_analysis` from src/tui/src/app/state.rs. -/
def AppState.reset_analysis (s : AppState) : AppState :=
  { s with analysis_lines := [], analysis_scroll := 0, current_text_buffer := "" }

/-! ## `app/analysis.rs` — the activity reducer -/

/-- The shared wrap width `(terminal_width as usize).saturating_sub(6).max(40)`
computed in several arms of src/tui/src/app/analysis.rs. -/
def wrapWidth (s : AppState) : Nat := max (s.terminal_width - 6) 40

/-- `flush_text_buffer` from src/tui/src/app/analysis.rs:130-155: push the
trimmed, line-split, word-wrapped buffer contents as Normal-styled lines,
then clear the buffer. -/
def flush_text_buffer (s : AppState) : AppState :=
  if s.current_text_buffer.isEmpty then s
  else
    let text := rustTrim s.current_text_buffer
    let s :=
      if ¬text.isEmpty then
        let w := wrapWidth s
        let newLines := (rustLines text).flatMap fun line =>
          let trimmed := rustTrim line
          if trimmed.isEmpty then []
          else (word_wrap trimmed w).map fun wrapped =>
            ActivityLine.mk "  " wrapped .normal
        { s with analysis_lines := s.analysis_lines ++ newLines }
      else s
    { s with current_text_buffer := "" }

/-- The `k=v` rendering of one `ToolStart` argument
(src/tui/src/app/analysis.rs:38-45). -/
def toolArgKV : String × JsonValue → String
  | (k, .str v) => k ++ "=" ++ v
  | (k, v) => k ++ "=" ++ jsonToString v

/-- The argument string of the `ToolStart` arm
(src/tui/src/app/analysis.rs:37-50). -/
def toolArgsStr (args : JsonValue) : String :=
  match args.asObject with
  | some obj => String.intercalate " " (obj.map toolArgKV)
  | none => ""

mutual

/-- `handle_analysis_event` from src/tui/src/app/analysis.rs:8-127: reduce
one decoded SSE event into state mutations. -/
def handle_analysis_event (s : AppState) : AnalysisEvent → AppState
  | .backfill events => handleAnalysisEvents s events
  | .thinking =>
    { s with analysis_lines :=
        s.analysis_lines ++ [ActivityLine.mk "◐" "Thinking..." .thinking] }
  | .textDelta delta =>
    let s := { s with current_text_buffer := s.current_text_buffer ++ delta }
    if rustContainsNewline s.current_text_buffer
        ∨ rustLen s.current_text_buffer > 200 then
      flush_text_buffer s
    else s
  | .toolStart tool args =>
    let s := flush_text_buffer s
    let wrap_width := wrapWidth s
    let full_text := tool ++ " " ++ toolArgsStr args
    let wrapped := word_wrap full_text wrap_width
    let newLines := wrapped.mapIdx fun i line =>
      ActivityLine.mk (if i == 0 then "🔧" else "  ") line .tool
    { s with analysis_lines := s.analysis_lines ++ newLines }
  | .toolOutput output =>
    let wrap_width := wrapWidth s
    if ¬(rustTrim output).isEmpty then
      let newLines := ((rustLines output).take 5).flatMap fun line =>
        let trimmed := rustTrim line
        if trimmed.isEmpty then []
        else (word_wrap trimmed wrap_width).map fun wrapped =>
          ActivityLine.mk "  " wrapped .dimmed
      { s with analysis_lines := s.analysis_lines ++ newLines }
    else s
  | .toolEnd _ is_error =>
    if is_error then
      { s with analysis_lines :=
          s.analysis_lines ++ [ActivityLine.mk "  " "(error)" .error] }
    else s
  | .complete proposal =>
    let s := flush_text_buffer s
    let s := { s with
      analysis_lines :=
        s.analysis_lines ++ [ActivityLine.mk "✓" "Analysis complete" .success],
      is_streaming_analysis := false }
    let s :=
      match s.current_issue with
      | some issue =>
        match issue.state with
        | .analyzing analysis_session_id =>
          let issue2 := { issue with state := .pendingApproval analysis_session_id proposal }
          { s with current_issue := some issue2 }
        | _ => s
      | none => s
    { s with screen := .proposal, proposal_scroll := 0 }
  | .error message =>
    let s := flush_text_buffer s
    { s with
      analysis_lines := s.analysis_lines ++ [ActivityLine.mk "✗" message .error],
      is_streaming_analysis := false }

/-- The `Backfill` loop of `handle_analysis_event`: reduce each contained
event in order. -/
def handleAnalysisEvents (s : AppState) : List AnalysisEvent → AppState
  | [] => s
  | e :: es => handleAnalysisEvents (handle_analysis_event s e) es

end

/-! ## `app/background.rs` — messages and the SSE stream task -/

/-- `BackgroundMessage` from src/tui/src/app/background.rs. -/
inductive BackgroundMessage where
  | listRefreshComplete (result : Except String ListIssuesResponse)
  | detailRefreshComplete (result : Except String IssueDetail)
  | analysisEvent (event : AnalysisEvent)
  | analysisStreamEnded (error : Option String)

/-- One item produced by the `EventSource` in
`BackgroundTasks::spawn_analysis_stream`: a connection-open notification, a
message whose payload parsed to an event, a message whose payload failed to
parse (carrying the parse-error text), or a transport-level error item. -/
inductive StreamItem where
  | opened
  | message (event : AnalysisEvent)
  | malformed (parseErr : String)
  | transportErr (err : String)

/-- The `is_normal_end` test of src/tui/src/app/background.rs:133-135. -/
def isNormalEnd (err : String) : Bool :=
  rustContainsStr err "end of stream" || rustContainsStr err "Stream ended"
    || rustContainsStr err "EOF"

/-- The loop body of the task spawned by `spawn_analysis_stream`
(src/tui/src/app/background.rs:95-152), as a function from the sequence of
`EventSource` items to the messages enqueued on the channel, assuming the
receiver stays alive (every send succeeds).  Note the unconditional final
`AnalysisStreamEnded(None)` send after the loop (line 151), reached both on
natural stream exhaustion and after every `break`. -/
def streamTaskMessages : List StreamItem → List BackgroundMessage
  | [] => [.analysisStreamEnded none]
  | .opened :: rest => streamTaskMessages rest
  | .message ev :: rest => .analysisEvent ev :: streamTaskMessages rest
  | .malformed e :: _ =>
    [.analysisStreamEnded (some ("Parse error: " ++ e)), .analysisStreamEnded none]
  | .transportErr e :: _ =>
    if isNormalEnd e then [.analysisStreamEnded none, .analysisStreamEnded none]
    else [.analysisStreamEnded (some e), .analysisStreamEnded none]

/-- Whether a message is the terminal `AnalysisStreamEnded`. -/
def isStreamEnded : BackgroundMessage → Bool
  | .analysisStreamEnded _ => true
  | _ => false

/-- The number of `AnalysisStreamEnded` messages in a message list. -/
def countStreamEnded (msgs : List BackgroundMessage) : Nat :=
  (msgs.filter isStreamEnded).length

/-- The payloads of the `AnalysisStreamEnded` messages, in order. -/
def streamEndedPayloads : List BackgroundMessage → List (Option String)
  | [] => []
  | .analysisStreamEnded o :: rest => o :: streamEndedPayloads rest
  | _ :: rest => streamEndedPayloads rest

/-! ## `app/mod.rs` — the App coordinator -/

/-- A task spawned by the dispatcher (`tokio::spawn` call sites in
src/tui/src/app/background.rs, keyed by the spawning App method). -/
inductive Spawn where
  | listRefresh
  | detailRefresh (issue_id : String)
  | analysisStream (issue_id : String)
deriving DecidableEq

/-- One arm of `App::poll_background` (src/tui/src/app/mod.rs:53-94):
process a single drained background message. -/
def step_message (s : AppState) : BackgroundMessage → AppState
  | .listRefreshComplete result =>
    let s := { s with is_refreshing := false }
    match result with
    | .ok response => AppState.clamp_selection { s with issues := response.issues }
    | .error e => { s with error := some e }
  | .detailRefreshComplete result =>
    let s := { s with is_refreshing_detail := false }
    match result with
    | .ok detail => { s with current_issue := some detail }
    | .error e => { s with error := some e }
  | .analysisEvent event => handle_analysis_event s event
  | .analysisStreamEnded err =>
    let s := { s with is_streaming_analysis := false }
    match err with
    | some e =>
      { s with analysis_lines :=
          s.analysis_lines ++ [ActivityLine.mk "✗" ("Stream error: " ++ e) .error] }
    | none => s

/-- `App::poll_background` over a drained message list, in arrival order. -/
def poll_background (s : AppState) (msgs : List BackgroundMessage) : AppState :=
  msgs.foldl step_message s

/-- `App::start_refresh` from src/tui/src/app/mod.rs:114-122, returning the
updated state together with the tasks it spawns. -/
def start_refresh (s : AppState) : AppState × List Spawn :=
  if s.is_refreshing then (s, [])
  else ({ s with is_refreshing := true, error := none }, [.listRefresh])

/-- `App::start_detail_refresh` from src/tui/src/app/mod.rs:147-159. -/
def start_detail_refresh (s : AppState) : AppState × List Spawn :=
  if s.is_refreshing_detail then (s, [])
  else
    match s.selected_issue_id with
    | none => (s, [])
    | some issue_id =>
      ({ s with is_refreshing_detail := true, error := none }, [.detailRefresh issue_id])

/-- `App::start_analysis_stream` from src/tui/src/app/mod.rs:329-337. -/
def start_analysis_stream (s : AppState) (issue_id : String) : AppState × List Spawn :=
  if s.is_streaming_analysis then (s, [])
  else ({ s with is_streaming_analysis := true }, [.analysisStream issue_id])

/-- `App::move_selection` from src/tui/src/app/mod.rs:184-191. -/
def move_selection (s : AppState) (delta : Int) : AppState :=
  if s.issues.isEmpty then s
  else
    let new_index : Int := (s.selected_index : Int) + delta
    { s with selected_index := (max 0 (min new_index ((s.issues.length : Int) - 1))).toNat }

/-- `App::jump_to_top` from src/tui/src/app/mod.rs. -/
def jump_to_top (s : AppState) : AppState := { s with selected_index := 0 }

/-- `App::jump_to_bottom` from src/tui/src/app/mod.rs. -/
def jump_to_bottom (s : AppState) : AppState :=
  if ¬s.issues.isEmpty then { s with selected_index := s.issues.length - 1 } else s

/-- `App::open_selected` from src/tui/src/app/mod.rs:206-215. -/
def open_selected (s : AppState) : AppState :=
  if s.issues.isEmpty then s
  else
    AppState.reset_analysis
      { s with screen := .detail, detail_scroll := 0, current_issue := none }

/-- `App::back_to_list` from src/tui/src/app/mod.rs:218-223. -/
def back_to_list (s : AppState) : AppState :=
  { s with screen := .list, current_issue := none, detail_scroll := 0,
           analysis_lines := [] }

/-- `App::back_to_detail` from src/tui/src/app/mod.rs. -/
def back_to_detail (s : AppState) : AppState := { s with screen := .detail }

/-- `App::open_proposal` from src/tui/src/app/mod.rs. -/
def open_proposal (s : AppState) : AppState :=
  { s with screen := .proposal, proposal_scroll := 0 }

/-- `App::back_from_proposal` from src/tui/src/app/mod.rs. -/
def back_from_proposal (s : AppState) : AppState := { s with screen := .detail }

/-- `App::scroll_detail` from src/tui/src/app/mod.rs. -/
def scroll_detail (s : AppState) (delta : Int) : AppState :=
  { s with detail_scroll := (max 0 ((s.detail_scroll : Int) + delta)).toNat }

/-- `App::scroll_analysis` from src/tui/src/app/mod.rs. -/
def scroll_analysis (s : AppState) (delta : Int) : AppState :=
  { s with analysis_scroll := (max 0 ((s.analysis_scroll : Int) + delta)).toNat }

/-- `App::scroll_proposal` from src/tui/src/app/mod.rs. -/
def scroll_proposal (s : AppState) (delta : Int) : AppState :=
  { s with proposal_scroll := (max 0 ((s.proposal_scroll : Int) + delta)).toNat }

/-- `App::refresh_current_issue` from src/tui/src/app/mod.rs:162-179, with
the network outcome supplied as an oracle argument. -/
def refresh_current_issue (s : AppState) (result : Except String IssueDetail) : AppState :=
  match s.selected_issue_id with
  | none => s
  | some _ =>
    let s := { s with is_loading := true }
    let s :=
      match result with
      | .ok detail => { s with current_issue := some detail }
      | .error e => { s with error := some ("Failed to fetch issue: " ++ e) }
    { s with is_loading := false }

/-- `App::load_cached_detail` from src/tui/src/app/mod.rs:125-144, with the
network outcome supplied as an oracle argument.  On a detail in `Analyzing`
state it connects to the SSE stream before storing the detail. -/
def load_cached_detail (s : AppState) (result : Except String IssueDetail) :
    AppState × List Spawn :=
  match s.selected_issue_id with
  | none => (s, [])
  | some _ =>
    let s := { s with error := none }
    match result with
    | .ok detail =>
      match detail.state with
      | .analyzing _ =>
        let (s, sp) := start_analysis_stream s detail.id
        ({ s with current_issue := some detail }, sp)
      | _ => ({ s with current_issue := some detail }, [])
    | .error e => ({ s with error := some ("Failed to fetch issue: " ++ e) }, [])

/-- `App::analyze_issue_from_list` from src/tui/src/app/mod.rs:274-287. -/
def analyze_issue_from_list (s : AppState) (analyzeResult : Except String Unit) :
    AppState × List Spawn :=
  match s.selected_issue_id with
  | none => (s, [])
  | some _ =>
    match analyzeResult with
    | .ok _ => start_refresh s
    | .error e => ({ s with error := some ("Failed to start analysis: " ++ e) }, [])

/-- `App::analyze_issue` from src/tui/src/app/mod.rs:290-326, with the two
network outcomes (the analyze POST and the follow-up detail fetch) supplied
as oracle arguments. -/
def analyze_issue (s : AppState) (analyzeResult : Except String Unit)
    (refreshResult : Except String IssueDetail) : AppState × List Spawn :=
  if s.current_issue.isNone || s.is_refreshing_detail then
    ({ s with error := some "Please wait for issue details to load" }, [])
  else
    match s.selected_issue_id with
    | none => (s, [])
    | some issue_id =>
      let s := AppState.reset_analysis { s with screen := .analysis }
      let s := { s with analysis_lines :=
        s.analysis_lines ++ [ActivityLine.mk "▶" "Starting analysis..." .normal] }
      let s := { s with is_loading := true }
      let (s, sp) :=
        match analyzeResult with
        | .ok _ =>
          let (s, sp) := start_analysis_stream s issue_id
          (refresh_current_issue s refreshResult, sp)
        | .error e =>
          ({ s with
              error := some ("Failed to start analysis: " ++ e),
              analysis_lines :=
                s.analysis_lines ++ [ActivityLine.mk "✗" ("Failed: " ++ e) .error] }, [])
      ({ s with is_loading := false }, sp)

/-- `App::approve_proposal` / `reject_proposal` / `complete_review` /
`retry_error` (src/tui/src/app/mod.rs:340-393) share one shape: guard on a
selected issue, run the action, record a formatted error on failure, then
re-fetch the current detail.  `prefixMsg` is the per-action error prefix. -/
def action_then_refresh (prefixMsg : String) (s : AppState)
    (actionResult : Except String Unit) (refreshResult : Except String IssueDetail) :
    AppState :=
  match s.selected_issue_id with
  | none => s
  | some _ =>
    let s := { s with is_loading := true }
    let s :=
      match actionResult with
      | .ok _ => s
      | .error e => { s with error := some (prefixMsg ++ e) }
    let s := refresh_current_issue s refreshResult
    { s with is_loading := false }

/-! ## The observable operations of the control loop

The tick loop (src/tui/src/main.rs `run_app`) dispatches a key to the
handler for the currently active screen, and between keys drains the
background channel.  `Op` is one observable operation: a user key action
(which fires only when its screen is active, mirroring the `match
app.screen` routing) or the delivery of one background message.  Network
outcomes consumed synchronously inside an action are supplied as oracle
arguments on the operation. -/
inductive Op where
  | moveSelection (delta : Int)
  | jumpToTop
  | jumpToBottom
  | refresh
  | analyzeFromList (analyzeResult : Except String Unit)
  | openIssue (detailResult : Except String IssueDetail)
  | backToList
  | scrollDetail (delta : Int)
  | refreshDetail
  | interactivePi (refreshResult : Except String IssueDetail)
  | enterFromDetail
  | analyzeFromDetail (analyzeResult : Except String Unit)
      (refreshResult : Except String IssueDetail)
  | completeReview (actionResult : Except String Unit)
      (refreshResult : Except String IssueDetail)
  | retryError (actionResult : Except String Unit)
      (refreshResult : Except String IssueDetail)
  | backToDetail (refreshResult : Except String IssueDetail)
  | scrollAnalysis (delta : Int)
  | backFromProposal
  | scrollProposal (delta : Int)
  | approveProposal (actionResult : Except String Unit)
      (refreshResult : Except String IssueDetail)
  | rejectProposal (actionResult : Except String Unit)
      (refreshResult : Except String IssueDetail)
  | msg (m : BackgroundMessage)

/-- One step of the control loop: the key dispatch of `run_app`
(src/tui/src/main.rs), with each key action guarded by the screen that
routes it, plus background-message delivery via the per-message arm of
`poll_background`.  Returns the new state and the tasks spawned. -/
def step (s : AppState) : Op → AppState × List Spawn
  | .moveSelection delta =>
    if s.screen = .list then (move_selection s delta, []) else (s, [])
  | .jumpToTop => if s.screen = .list then (jump_to_top s, []) else (s, [])
  | .jumpToBottom => if s.screen = .list then (jump_to_bottom s, []) else (s, [])
  | .refresh => if s.screen = .list then start_refresh s else (s, [])
  | .analyzeFromList analyzeResult =>
    if s.screen = .list then analyze_issue_from_list s analyzeResult else (s, [])
  | .openIssue detailResult =>
    if s.screen = .list then
      let s := open_selected s
      let (s, sp1) := load_cached_detail s detailResult
      let (s, sp2) := start_detail_refresh s
      (s, sp1 ++ sp2)
    else (s, [])
  | .backToList => if s.screen = .detail then (back_to_list s, []) else (s, [])
  | .scrollDetail delta =>
    if s.screen = .detail then (scroll_detail s delta, []) else (s, [])
  | .refreshDetail => if s.screen = .detail then start_detail_refresh s else (s, [])
  | .interactivePi refreshResult =>
    if s.screen = .detail then (refresh_current_issue s refreshResult, []) else (s, [])
  | .enterFromDetail =>
    if s.screen = .detail then
      match s.current_issue with
      | some issue =>
        match issue.state with
        | .pendingApproval _ _ => (open_proposal s, [])
        | .analyzing _ => ({ s with screen := .analysis }, [])
        | _ => (s, [])
      | none => (s, [])
    else (s, [])
  | .analyzeFromDetail analyzeResult refreshResult =>
    if s.screen = .detail then analyze_issue s analyzeResult refreshResult else (s, [])
  | .completeReview actionResult refreshResult =>
    if s.screen = .detail then
      (action_then_refresh "Failed to complete: " s actionResult refreshResult, [])
    else (s, [])
  | .retryError actionResult refreshResult =>
    if s.screen = .detail then
      (action_then_refresh "Failed to retry: " s actionResult refreshResult, [])
    else (s, [])
  | .backToDetail refreshResult =>
    if s.screen = .analysis then
      (refresh_current_issue (back_to_detail s) refreshResult, [])
    else (s, [])
  | .scrollAnalysis delta =>
    if s.screen = .analysis then (scroll_analysis s delta, []) else (s, [])
  | .backFromProposal =>
    if s.screen = .proposal then (back_from_proposal s, []) else (s, [])
  | .scrollProposal delta =>
    if s.screen = .proposal then (scroll_proposal s delta, []) else (s, [])
  | .approveProposal actionResult refreshResult =>
    if s.screen = .proposal then
      (back_from_proposal
        (action_then_refresh "Failed to approve: " s actionResult refreshResult), [])
    else (s, [])
  | .rejectProposal actionResult refreshResult =>
    if s.screen = .proposal then
      (back_from_proposal
        (action_then_refresh "Failed to reject: " s actionResult refreshResult), [])
    else (s, [])
  | .msg m => (step_message s m, [])

/-- Run a sequence of operations from a starting state, discarding spawns. -/
def runOps (s : AppState) (ops : List Op) : AppState :=
  ops.foldl (fun s op => (step s op).1) s

/-! ## Helper lemmas -/

theorem utf8LenList_append (l1 l2 : List Char) :
    utf8LenList (l1 ++ l2) = utf8LenList l1 + utf8LenList l2 := by
  induction l1 with
  | nil => simp [utf8LenList]
  | cons c cs ih => simp [utf8LenList, ih]; omega

theorem rustLen_append (a b : String) : rustLen (a ++ b) = rustLen a + rustLen b := by
  show utf8LenList (a.data ++ b.data) = _
  exact utf8LenList_append a.data b.data

theorem rustLen_space : rustLen " " = 1 := by decide

/-- An over-long word is emitted, verbatim, as an element of the output of
the wrap loop. -/
theorem wordWrapCore_mem_of_long (width : Nat) :
    ∀ (ws : List String) (cur word : String), word ∈ ws → rustLen word > width →
      word ∈ wordWrapCore width ws cur := by
  intro ws
  induction ws with
  | nil => intro cur word h; cases h
  | cons w rest ih =>
    intro cur word hmem hlong
    rcases List.mem_cons.mp hmem with heq | htail
    · subst heq
      by_cases hcur : cur.isEmpty
      · simp only [wordWrapCore, hcur, if_pos, if_true]
        have : rustLen word > width := hlong
        simp [this, hlong]
      · have hfit : ¬ (rustLen cur + 1 + rustLen word ≤ width) := by omega
        simp only [wordWrapCore, hcur, if_neg, if_false]
        simp [hfit, hlong]
    · by_cases hcur : cur.isEmpty
      · simp only [wordWrapCore, hcur, if_true]
        by_cases hw : rustLen w > width
        · simp only [hw, if_pos]
          exact List.mem_cons_of_mem _ (ih "" word htail hlong)
        · simp only [hw, if_neg, if_false]
          exact ih w word htail hlong
      · simp only [wordWrapCore, hcur, if_false]
        by_cases hfit : rustLen cur + 1 + rustLen w ≤ width
        · simp only [hfit, if_pos]
          exact ih _ word htail hlong
        · simp only [hfit, if_neg]
          by_cases hw : rustLen w > width
          · simp only [hw, if_pos]
            exact List.mem_cons_of_mem _ (List.mem_cons_of_mem _ (ih "" word htail hlong))
          · simp only [hw, if_neg, if_false]
            exact List.mem_cons_of_mem _ (ih w word htail hlong)

/-- Every line the wrap loop emits either fits in the width or is one of
the input words (the over-long case). -/
theorem wordWrapCore_line_bound (width : Nat) :
    ∀ (ws : List String) (cur : String), rustLen cur ≤ width →
      ∀ line ∈ wordWrapCore width ws cur, rustLen line ≤ width ∨ line ∈ ws := by
  intro ws
  induction ws with
  | nil =>
    intro cur hcur line hline
    simp only [wordWrapCore] at hline
    split at hline
    · cases hline
    · rcases List.mem_singleton.mp hline with rfl
      exact Or.inl hcur
  | cons w rest ih =>
    intro cur hcur line hline
    simp only [wordWrapCore] at hline
    split at hline
    next =>
      split at hline
      next hw =>
        rcases List.mem_cons.mp hline with rfl | h
        · exact Or.inr (List.mem_cons_self _ _)
        · rcases ih "" (by simp [rustLen, utf8LenList]) line h with h1 | h1
          · exact Or.inl h1
          · exact Or.inr (List.mem_cons_of_mem _ h1)
      next hw =>
        have hwle : rustLen w ≤ width := by omega
        rcases ih w hwle line hline with h1 | h1
        · exact Or.inl h1
        · exact Or.inr (List.mem_cons_of_mem _ h1)
    next =>
      split at hline
      next hfit =>
        have : rustLen (cur ++ " " ++ w) ≤ width := by
          rw [rustLen_append, rustLen_append, rustLen_space]; omega
        rcases ih _ this line hline with h1 | h1
        · exact Or.inl h1
        · exact Or.inr (List.mem_cons_of_mem _ h1)
      next hfit =>
        split at hline
        next hw =>
          rcases List.mem_cons.mp hline with rfl | h
          · exact Or.inl hcur
          rcases List.mem_cons.mp h with rfl | h
          · exact Or.inr (List.mem_cons_self _ _)
          rcases ih "" (by simp [rustLen, utf8LenList]) line h with h1 | h1
          · exact Or.inl h1
          · exact Or.inr (List.mem_cons_of_mem _ h1)
        next hw =>
          have hwle : rustLen w ≤ width := by omega
          rcases List.mem_cons.mp hline with rfl | h
          · exact Or.inl hcur
          rcases ih w hwle line h with h1 | h1
          · exact Or.inl h1
          · exact Or.inr (List.mem_cons_of_mem _ h1)

/-- C4: `word_wrap(s, w)` splits on whitespace and greedily packs words
while `len(line) + 1 + len(word) <= w`; a word longer than `w` is placed
alone on its own line unmodified; empty input yields exactly `[""]`;
`word_wrap "hello world foo bar" 10 = ["hello", "world foo", "bar"]` and
`word_wrap "" 10 = [""]`.  The greedy packing is the body of
`wordWrapCore`; the theorem records the concrete examples, the
empty-input shape for every width, that an over-long input word appears
verbatim as its own output line, and that every output line fits in the
width unless it is such an over-long word. -/
theorem c4_word_wrap_greedy_wrap :
    word_wrap "hello world foo bar" 10 = ["hello", "world foo", "bar"]
    ∧ word_wrap "" 10 = [""]
    ∧ (∀ width, word_wrap "" width = [""])
    ∧ (∀ s width word, word ∈ rustSplitWhitespace s → rustLen word > width →
        word ∈ word_wrap s width)
    ∧ (∀ s width line, line ∈ word_wrap s width →
        rustLen line ≤ width ∨ line ∈ rustSplitWhitespace s) := by
  refine ⟨by decide, by decide, fun width => rfl, ?_, ?_⟩
  · intro s width word hmem hlong
    have h := wordWrapCore_mem_of_long width (rustSplitWhitespace s) "" word hmem hlong
    unfold word_wrap
    dsimp only
    split
    next hemp =>
      rw [List.isEmpty_iff] at hemp
      rw [hemp] at h
      cases h
    next => exact h
  · intro s width line hline
    have hz : rustLen "" = 0 := by decide
    unfold word_wrap at hline
    dsimp only at hline
    split at hline
    · rcases List.mem_singleton.mp hline with rfl
      exact Or.inl (by omega)
    · exact wordWrapCore_line_bound width _ "" (by omega) line hline

/-- Witness for `c4_word_wrap_greedy_wrap`: at `s = "aaaa bb"`, `w = 3`,
the over-long word `"aaaa"` is a line of the output, and the line `"bb"`
of the output fits in the width. -/
theorem c4_word_wrap_greedy_wrap_witness :
    "aaaa" ∈ word_wrap "aaaa bb" 3
    ∧ (rustLen "bb" ≤ 3 ∨ "bb" ∈ rustSplitWhitespace "aaaa bb") := by
  constructor
  · exact c4_word_wrap_greedy_wrap.2.2.2.1 "aaaa bb" 3 "aaaa" (by decide) (by decide)
  · exact c4_word_wrap_greedy_wrap.2.2.2.2 "aaaa bb" 3 "bb" (by decide)

/-! ## C5 — the ToolOutput arm -/

/-- The first `n` non-blank (after trimming) lines of `output` — the
selection claim C5 describes, written from the spec words for comparison
with the code behaviour. -/
def firstNonBlankLines (output : String) (n : Nat) : List String :=
  (((rustLines output).map rustTrim).filter (fun l => ¬l.isEmpty)).take n

/-- The display lines the claim predicts for a `ToolOutput` event: the
word-wrapped content of up to the first 5 non-blank lines, styled Dimmed. -/
def toolOutputLinesClaim (output : String) (w : Nat) : List ActivityLine :=
  (firstNonBlankLines output 5).flatMap fun t =>
    (word_wrap t w).map fun wrapped => ActivityLine.mk "  " wrapped .dimmed

/-- What the `ToolOutput` arm actually appends: the non-blank lines among
the first 5 raw lines of `output` (blank lines are counted against the 5),
trimmed, word-wrapped and styled Dimmed. -/
def toolOutputLinesCode (output : String) (w : Nat) : List ActivityLine :=
  ((rustLines output).take 5).flatMap fun line =>
    let trimmed := rustTrim line
    if trimmed.isEmpty then []
    else (word_wrap trimmed w).map fun wrapped => ActivityLine.mk "  " wrapped .dimmed

/-- Counterexample to C5: with the default state (wrap width 74) and
`output = "a\n\n\n\n\nb"`, the line `"b"` is among the first 5 non-blank
lines of the output, yet the reducer appends only the line for `"a"` —
`lines().take(5)` counts the blank lines against the limit of 5, so `"b"`
(the 6th raw line) is dropped. -/
theorem c5_tool_output_counterexample :
    (handle_analysis_event AppState.default
        (.toolOutput "a\n\n\n\n\nb")).analysis_lines
      = [ActivityLine.mk "  " "a" .dimmed]
    ∧ toolOutputLinesClaim "a\n\n\n\n\nb" (wrapWidth AppState.default)
      = [ActivityLine.mk "  " "a" .dimmed, ActivityLine.mk "  " "b" .dimmed] := by
  constructor
  · decide
  · decide

/-- C5 (amended): a `ToolOutput{output}` event appends to the activity log
exactly the word-wrapped, Dimmed content of the non-blank lines among the
first 5 raw lines of `output` (blank lines count against the 5); everything
beyond the first 5 lines is truncated, and nothing is buffered — the
pending-text accumulator and all other state fields are unchanged. -/
theorem c5_tool_output_amended (s : AppState) (output : String) :
    (handle_analysis_event s (.toolOutput output)).analysis_lines
      = s.analysis_lines
        ++ (if (rustTrim output).isEmpty then [] else toolOutputLinesCode output (wrapWidth s))
    ∧ (handle_analysis_event s (.toolOutput output)).current_text_buffer
      = s.current_text_buffer
    ∧ (handle_analysis_event s (.toolOutput output)).screen = s.screen
    ∧ (handle_analysis_event s (.toolOutput output)).is_streaming_analysis
      = s.is_streaming_analysis := by
  unfold handle_analysis_event
  dsimp only
  split
  next h =>
    have hb : (rustTrim output).isEmpty = false := by
      cases hx : (rustTrim output).isEmpty
      · rfl
      · exact absurd hx h
    exact ⟨rfl, rfl, rfl, rfl⟩
  next h =>
    have hb : (rustTrim output).isEmpty = true := not_not.mp h
    refine ⟨?_, rfl, rfl, rfl⟩
    simp [hb]

/-- Witness for `c5_tool_output_amended` at the default state with a
two-line output. -/
theorem c5_tool_output_amended_witness :
    (handle_analysis_event AppState.default (.toolOutput "x\ny")).analysis_lines
      = AppState.default.analysis_lines
        ++ (if (rustTrim "x\ny").isEmpty then []
            else toolOutputLinesCode "x\ny" (wrapWidth AppState.default)) :=
  (c5_tool_output_amended AppState.default "x\ny").1

/-! ## C9 — TextDelta accumulation and flushing -/

/-- The flush condition as claim C9 states it: the accumulator contains a
newline or its length exceeds 200 **characters** (written from the claim
words; the code tests the UTF-8 **byte** length `str::len`). -/
def flushCondClaim (b : String) : Prop :=
  rustContainsNewline b = true ∨ b.data.length > 200

instance (b : String) : Decidable (flushCondClaim b) :=
  inferInstanceAs (Decidable (rustContainsNewline b = true ∨ b.data.length > 200))

/-- The flush condition the code tests
(src/tui/src/app/analysis.rs:26-27): newline or byte length > 200. -/
def flushCondCode (b : String) : Prop :=
  rustContainsNewline b = true ∨ rustLen b > 200

instance (b : String) : Decidable (flushCondCode b) :=
  inferInstanceAs (Decidable (rustContainsNewline b = true ∨ rustLen b > 200))

/-- `flush_text_buffer` always leaves the accumulator empty (the early
return fires only when it is already empty). -/
theorem flush_text_buffer_clears (s : AppState) :
    (flush_text_buffer s).current_text_buffer = "" := by
  unfold flush_text_buffer
  split
  next he => exact (String.isEmpty_iff _).mp he
  next he => dsimp only

/-- The `TextDelta` arm, written with the named flush condition. -/
theorem handle_textDelta_eq (s : AppState) (delta : String) :
    handle_analysis_event s (.textDelta delta)
      = if flushCondCode (s.current_text_buffer ++ delta)
        then flush_text_buffer { s with current_text_buffer := s.current_text_buffer ++ delta }
        else { s with current_text_buffer := s.current_text_buffer ++ delta } := by
  unfold handle_analysis_event
  dsimp only
  rfl

/-- Counterexample to C9: a delta of 67 `…` characters (201 UTF-8 bytes,
67 characters, no newline) arriving at an empty accumulator.  The claim
condition (length in characters) says no flush happens, yet the code
flushes: the accumulator is emptied and a wrapped line is appended. -/
theorem c9_text_delta_counterexample :
    ¬ flushCondClaim (String.mk (List.replicate 67 '…'))
    ∧ (handle_analysis_event AppState.default
        (.textDelta (String.mk (List.replicate 67 '…')))).current_text_buffer = ""
    ∧ (handle_analysis_event AppState.default
        (.textDelta (String.mk (List.replicate 67 '…')))).analysis_lines
      = [ActivityLine.mk "  " (String.mk (List.replicate 67 '…')) .normal] := by
  refine ⟨by decide, by decide, by decide⟩

/-- C9 (amended): a `TextDelta{delta}` event appends `delta` to the
pending-text accumulator and flushes exactly when the new accumulator
contains a newline or its UTF-8 **byte** length exceeds 200; when the
condition fails the event only grows the accumulator and changes nothing
else.  A `ToolStart` event flushes pending text before appending its own
lines: the flushed log is a prefix of the post-`ToolStart` log. -/
theorem c9_text_delta_flush_and_tool_start_order (s : AppState) (delta : String) :
    ((handle_analysis_event s (.textDelta delta)).current_text_buffer
      = if flushCondCode (s.current_text_buffer ++ delta) then ""
        else s.current_text_buffer ++ delta)
    ∧ (¬ flushCondCode (s.current_text_buffer ++ delta) →
        handle_analysis_event s (.textDelta delta)
          = { s with current_text_buffer := s.current_text_buffer ++ delta })
    ∧ (flushCondCode (s.current_text_buffer ++ delta) →
        handle_analysis_event s (.textDelta delta)
          = flush_text_buffer { s with current_text_buffer := s.current_text_buffer ++ delta })
    ∧ (∀ tool args, (flush_text_buffer s).analysis_lines
        <+: (handle_analysis_event s (.toolStart tool args)).analysis_lines) := by
  refine ⟨?_, ?_, ?_, ?_⟩
  · rw [handle_textDelta_eq]
    split
    next h => exact flush_text_buffer_clears _
    next h => rfl
  · intro h
    rw [handle_textDelta_eq, if_neg h]
  · intro h
    rw [handle_textDelta_eq, if_pos h]
  · intro tool args
    exact ⟨_, rfl⟩

/-- Witness for `c9_text_delta_flush_and_tool_start_order`: concrete
no-flush and flush instances, and the `ToolStart` ordering at a state with
pending text. -/
theorem c9_text_delta_flush_witness :
    (handle_analysis_event AppState.default (.textDelta "hi")
      = { AppState.default with current_text_buffer := "hi" })
    ∧ (handle_analysis_event AppState.default (.textDelta "hi\n")
      = flush_text_buffer { AppState.default with current_text_buffer := "hi\n" })
    ∧ (flush_text_buffer { AppState.default with current_text_buffer := "pending" }).analysis_lines
      <+: (handle_analysis_event { AppState.default with current_text_buffer := "pending" }
            (.toolStart "bash" (.obj [("cmd", .str "ls")]))).analysis_lines := by
  refine ⟨?_, ?_, ?_⟩
  · have h := (c9_text_delta_flush_and_tool_start_order AppState.default "hi").2.1
    exact h (by decide)
  · have h := (c9_text_delta_flush_and_tool_start_order AppState.default "hi\n").2.2.1
    exact h (by decide)
  · exact (c9_text_delta_flush_and_tool_start_order
      { AppState.default with current_text_buffer := "pending" } "").2.2.2 "bash"
      (.obj [("cmd", .str "ls")])

/-! ## C2 — the Complete arm on an Analyzing issue -/

/-- `flush_text_buffer` appends some lines and clears the accumulator; no
other field changes. -/
theorem flush_text_buffer_spec (s : AppState) :
    ∃ t, flush_text_buffer s
      = { s with analysis_lines := s.analysis_lines ++ t, current_text_buffer := "" } := by
  unfold flush_text_buffer
  split
  next he =>
    refine ⟨[], ?_⟩
    have hb : s.current_text_buffer = "" := (String.isEmpty_iff _).mp he
    rw [List.append_nil, ← hb]
  next he =>
    dsimp only
    split
    next => exact ⟨_, rfl⟩
    next => exact ⟨[], by simp⟩

/-- C2: processing `Complete{proposal}` while the current issue state is
`Analyzing{sid}` flushes the pending text, appends a Success line, clears
the streaming flag, rewrites the issue state in place to
`PendingApproval{sid, proposal}` with the proposal text unchanged, sets
the screen to Proposal and resets the proposal scroll to 0. -/
theorem c2_complete_to_pending_approval (s : AppState) (detail : IssueDetail)
    (sid proposal : String) (hcur : s.current_issue = some detail)
    (hstate : detail.state = .analyzing sid) :
    (handle_analysis_event s (.complete proposal)).analysis_lines
      = (flush_text_buffer s).analysis_lines
        ++ [ActivityLine.mk "✓" "Analysis complete" .success]
    ∧ (handle_analysis_event s (.complete proposal)).current_text_buffer = ""
    ∧ (handle_analysis_event s (.complete proposal)).is_streaming_analysis = false
    ∧ (handle_analysis_event s (.complete proposal)).current_issue
      = some ({ detail with state := .pendingApproval sid proposal })
    ∧ (handle_analysis_event s (.complete proposal)).screen = .proposal
    ∧ (handle_analysis_event s (.complete proposal)).proposal_scroll = 0 := by
  obtain ⟨t, ht⟩ := flush_text_buffer_spec s
  unfold handle_analysis_event
  dsimp only
  rw [ht, hcur]
  dsimp only
  rw [hstate]
  dsimp only
  refine ⟨by simp, rfl, rfl, rfl, rfl, rfl⟩

/-- Witness for `c2_complete_to_pending_approval` at a concrete state whose
current issue is analyzing session `"s1"`. -/
theorem c2_complete_to_pending_approval_witness :
    (handle_analysis_event
        { AppState.default with
            screen := .analysis,
            is_streaming_analysis := true,
            current_issue := some (IssueDetail.mk "id1" "sentry" "analyzing"
              emptySource (.analyzing "s1") "t0" "t1") }
        (.complete "fix the bug")).current_issue
      = some (IssueDetail.mk "id1" "sentry" "analyzing" emptySource
          (.pendingApproval "s1" "fix the bug") "t0" "t1")
    ∧ (handle_analysis_event
        { AppState.default with
            screen := .analysis,
            is_streaming_analysis := true,
            current_issue := some (IssueDetail.mk "id1" "sentry" "analyzing"
              emptySource (.analyzing "s1") "t0" "t1") }
        (.complete "fix the bug")).screen = .proposal := by
  have h := c2_complete_to_pending_approval
    { AppState.default with
        screen := .analysis,
        is_streaming_analysis := true,
        current_issue := some (IssueDetail.mk "id1" "sentry" "analyzing"
          emptySource (.analyzing "s1") "t0" "t1") }
    (IssueDetail.mk "id1" "sentry" "analyzing" emptySource (.analyzing "s1") "t0" "t1")
    "s1" "fix the bug" rfl rfl
  exact ⟨h.2.2.2.1, h.2.2.2.2.1⟩

/-! ## C7 — the activity log only grows under the reducer -/

/-- Every event arm of the reducer leaves the existing activity log as a
prefix of the new one: lines are only ever appended. -/
theorem handle_event_lines_grow (s : AppState) (e : AnalysisEvent) :
    s.analysis_lines <+: (handle_analysis_event s e).analysis_lines := by
  refine handle_analysis_event.induct
    (fun s e => s.analysis_lines <+: (handle_analysis_event s e).analysis_lines)
    (fun s es => s.analysis_lines <+: (handleAnalysisEvents s es).analysis_lines)
    ?_ ?_ ?_ ?_ ?_ ?_ ?_ ?_ ?_ ?_ ?_ ?_ ?_ s e
  · -- Backfill
    intro s events ih
    unfold handle_analysis_event
    exact ih
  · -- Thinking
    intro s
    unfold handle_analysis_event
    exact List.prefix_append _ _
  · -- TextDelta, flush branch
    intro s delta
    dsimp only
    intro h
    have hc : flushCondCode (s.current_text_buffer ++ delta) := by
      simpa [flushCondCode] using h
    rw [handle_textDelta_eq, if_pos hc]
    obtain ⟨t, ht⟩ := flush_text_buffer_spec
      { s with current_text_buffer := s.current_text_buffer ++ delta }
    rw [ht]
    exact List.prefix_append _ _
  · -- TextDelta, no-flush branch
    intro s delta
    dsimp only
    intro h
    have hc : ¬ flushCondCode (s.current_text_buffer ++ delta) := by
      simpa [flushCondCode] using h
    rw [handle_textDelta_eq, if_neg hc]
  · -- ToolStart
    intro s tool args
    unfold handle_analysis_event
    dsimp only
    obtain ⟨t, ht⟩ := flush_text_buffer_spec s
    rw [ht]
    dsimp only
    rw [List.append_assoc]
    exact List.prefix_append _ _
  · -- ToolOutput, non-blank branch
    intro s output h
    unfold handle_analysis_event
    dsimp only
    rw [if_pos h]
    exact List.prefix_append _ _
  · -- ToolOutput, blank branch
    intro s output h
    unfold handle_analysis_event
    dsimp only
    rw [if_neg h]
  · -- ToolEnd, error
    intro s tool
    unfold handle_analysis_event
    exact List.prefix_append _ _
  · -- ToolEnd, no error
    intro s tool is_error h
    unfold handle_analysis_event
    try dsimp only
    rw [if_neg h]
  · -- Complete
    intro s proposal
    unfold handle_analysis_event
    try dsimp only
    obtain ⟨t, ht⟩ := flush_text_buffer_spec s
    rw [ht]
    try dsimp only
    split
    · split
      all_goals
        rw [List.append_assoc]
        exact List.prefix_append _ _
    · rw [List.append_assoc]
      exact List.prefix_append _ _
  · -- Error
    intro s message
    unfold handle_analysis_event
    dsimp only
    obtain ⟨t, ht⟩ := flush_text_buffer_spec s
    rw [ht]
    dsimp only
    rw [List.append_assoc]
    exact List.prefix_append _ _
  · -- list: nil
    intro s
    unfold handleAnalysisEvents
    exact List.prefix_refl _
  · -- list: cons
    intro s e es ih1 ih2
    unfold handleAnalysisEvents
    exact ih1.trans ih2

/-- The backfill loop, and hence any event sequence, also only appends. -/
theorem handle_events_lines_grow (es : List AnalysisEvent) :
    ∀ s : AppState, s.analysis_lines <+: (handleAnalysisEvents s es).analysis_lines := by
  induction es with
  | nil =>
    intro s
    unfold handleAnalysisEvents
    exact List.prefix_refl _
  | cons e es ih =>
    intro s
    unfold handleAnalysisEvents
    exact (handle_event_lines_grow s e).trans (ih _)

/-- C7: for every state and every event (and every event sequence, covering
`Backfill` replays), the reducer never removes or replaces existing
activity-log lines — the old log is a prefix of the new one and its length
is non-decreasing; the log is emptied only by the explicit list-clearing
operation `reset_analysis` (and the clearing sites `open_selected` /
`analyze_issue` / `back_to_list` that invoke or inline it). -/
theorem c7_activity_log_monotone (s : AppState) (e : AnalysisEvent)
    (es : List AnalysisEvent) :
    s.analysis_lines <+: (handle_analysis_event s e).analysis_lines
    ∧ s.analysis_lines.length ≤ (handle_analysis_event s e).analysis_lines.length
    ∧ s.analysis_lines <+: (handleAnalysisEvents s es).analysis_lines
    ∧ (AppState.reset_analysis s).analysis_lines = [] :=
  ⟨handle_event_lines_grow s e,
   (handle_event_lines_grow s e).length_le,
   handle_events_lines_grow es s,
   rfl⟩

/-! ## C6 — refresh completions -/

/-- C6: a `ListRefreshComplete` / `DetailRefreshComplete` message clears
the corresponding in-flight flag; on `Ok` the corresponding state (issue
list with re-clamped selection, or current detail) is replaced wholesale;
on `Err` only the last-error field is set, and the previously held list /
detail / selection survive, so a failed refresh never blanks a working
view. -/
theorem c6_refresh_complete_state_update (s : AppState) :
    (∀ r, step_message s (.listRefreshComplete (.ok r))
        = AppState.clamp_selection { s with is_refreshing := false, issues := r.issues })
    ∧ (∀ e, step_message s (.listRefreshComplete (.error e))
        = { s with is_refreshing := false, error := some e })
    ∧ (∀ d, step_message s (.detailRefreshComplete (.ok d))
        = { s with is_refreshing_detail := false, current_issue := some d })
    ∧ (∀ e, step_message s (.detailRefreshComplete (.error e))
        = { s with is_refreshing_detail := false, error := some e })
    ∧ (∀ e, (step_message s (.listRefreshComplete (.error e))).issues = s.issues
        ∧ (step_message s (.listRefreshComplete (.error e))).selected_index
          = s.selected_index
        ∧ (step_message s (.listRefreshComplete (.error e))).current_issue
          = s.current_issue)
    ∧ (∀ e, (step_message s (.detailRefreshComplete (.error e))).current_issue
          = s.current_issue
        ∧ (step_message s (.detailRefreshComplete (.error e))).issues = s.issues) :=
  ⟨fun _ => rfl, fun _ => rfl, fun _ => rfl, fun _ => rfl,
   fun _ => ⟨rfl, rfl, rfl⟩, fun _ => ⟨rfl, rfl⟩⟩

/-! ## C8 — starting a refresh is idempotent while one is in flight -/

/-- C8: `start_refresh` while `is_refreshing`, `start_detail_refresh`
while `is_refreshing_detail`, and `start_analysis_stream` while
`is_streaming_analysis` spawn no task and change no state; consequently a
second `start_refresh` issued right after a first one spawns nothing, so
exactly one list-refresh task (and hence one completion message) exists
for the operation. -/
theorem c8_start_refresh_idempotent_in_flight (s : AppState) :
    (s.is_refreshing = true → start_refresh s = (s, []))
    ∧ (s.is_refreshing_detail = true → start_detail_refresh s = (s, []))
    ∧ (s.is_streaming_analysis = true →
        ∀ issue_id, start_analysis_stream s issue_id = (s, []))
    ∧ (s.is_refreshing = false →
        (start_refresh s).2 = [.listRefresh]
        ∧ start_refresh (start_refresh s).1 = ((start_refresh s).1, [])) := by
  refine ⟨?_, ?_, ?_, ?_⟩
  · intro h
    unfold start_refresh
    rw [if_pos h]
  · intro h
    unfold start_detail_refresh
    rw [if_pos h]
  · intro h issue_id
    unfold start_analysis_stream
    rw [if_pos h]
  · intro h
    unfold start_refresh
    rw [if_neg (by simp [h])]
    exact ⟨rfl, rfl⟩

/-- A state with all three in-flight flags set, for concrete scenarios. -/
def allInFlight : AppState :=
  { AppState.default with is_refreshing := true, is_refreshing_detail := true, is_streaming_analysis := true }

/-- Witness for `c8_start_refresh_idempotent_in_flight`: at a state with
all three in-flight flags set, each start operation is a no-op; from the
default state, a first `start_refresh` spawns the single task and a second
call spawns nothing. -/
theorem c8_start_refresh_idempotent_witness :
    start_refresh allInFlight = (allInFlight, [])
    ∧ start_detail_refresh allInFlight = (allInFlight, [])
    ∧ start_analysis_stream allInFlight "id1" = (allInFlight, [])
    ∧ (start_refresh AppState.default).2 = [.listRefresh]
    ∧ start_refresh (start_refresh AppState.default).1
      = ((start_refresh AppState.default).1, []) := by
  have h1 := c8_start_refresh_idempotent_in_flight allInFlight
  have h2 := c8_start_refresh_idempotent_in_flight AppState.default
  exact ⟨h1.1 rfl, h1.2.1 rfl, h1.2.2.1 rfl "id1", (h2.2.2.2 rfl).1, (h2.2.2.2 rfl).2⟩

/-! ## C10 — stale selection indices are tolerated, never a panic -/

theorem get?_isSome_iff {α : Type} (l : List α) (n : Nat) :
    (l.get? n).isSome = true ↔ n < l.length := by
  induction l generalizing n with
  | nil => simp [List.get?]
  | cons a t ih =>
    cases n with
    | zero => simp [List.get?]
    | succ m => simpa [List.get?] using ih m

/-- A sample issue used for concrete scenarios. -/
def sampleIssue : Issue :=
  Issue.mk "12345" "sentry" "TypeError" "PROJ-123" "pending" 127 43 "f" "l" "u"

/-- C10: `selected_index < issues.len()` is not an invariant —
`clamp_selection` is a no-op on an empty list, and replacing a non-empty
list by an empty one (a successful refresh returning no issues) leaves the
old index in place — yet `selected_issue_id` is a checked lookup returning
`Some` exactly when the index is in range, and `start_detail_refresh`
is a plain no-op when it returns `None`. -/
theorem c10_selection_totality (s : AppState) :
    (s.issues = [] → AppState.clamp_selection s = s)
    ∧ ((s.selected_issue_id).isSome = true ↔ s.selected_index < s.issues.length)
    ∧ (s.is_refreshing_detail = false → s.selected_issue_id = none →
        start_detail_refresh s = (s, []))
    ∧ (step_message { AppState.default with issues := [sampleIssue] }
        (.listRefreshComplete (.ok (ListIssuesResponse.mk [] 0 50 0)))).issues = []
    ∧ (step_message { AppState.default with issues := [sampleIssue] }
        (.listRefreshComplete (.ok (ListIssuesResponse.mk [] 0 50 0)))).selected_index = 0
    ∧ (step_message { AppState.default with issues := [sampleIssue] }
        (.listRefreshComplete (.ok (ListIssuesResponse.mk [] 0 50 0)))).selected_issue_id
      = none := by
  refine ⟨?_, ?_, ?_, by decide, by decide, by decide⟩
  · intro h
    unfold AppState.clamp_selection
    rw [if_neg (by simp [h])]
  · unfold AppState.selected_issue_id
    have hmap : ∀ (o : Option Issue), (Option.map Issue.id o).isSome = o.isSome := by
      intro o
      cases o <;> rfl
    rw [hmap]
    exact get?_isSome_iff s.issues s.selected_index
  · intro h hnone
    unfold start_detail_refresh
    rw [if_neg (by simp [h]), hnone]

/-- Witness for `c10_selection_totality` at the default (empty) state. -/
theorem c10_selection_totality_witness :
    AppState.clamp_selection AppState.default = AppState.default
    ∧ ((AppState.default.selected_issue_id).isSome = true
        ↔ AppState.default.selected_index < AppState.default.issues.length)
    ∧ start_detail_refresh AppState.default = (AppState.default, []) := by
  have h := c10_selection_totality AppState.default
  exact ⟨h.1 rfl, h.2.1, h.2.2.1 rfl rfl⟩

/-! ## C1 — terminal messages of the analysis stream task -/

/-- Structure of the stream task output: it always ends with an
`AnalysisStreamEnded(None)` (the unconditional send after the loop), and
enqueues one or two `AnalysisStreamEnded` messages in total. -/
theorem streamTask_shape (items : List StreamItem) :
    (∃ ms, streamTaskMessages items = ms ++ [.analysisStreamEnded none])
    ∧ 1 ≤ countStreamEnded (streamTaskMessages items)
    ∧ countStreamEnded (streamTaskMessages items) ≤ 2 := by
  induction items with
  | nil => exact ⟨⟨[], rfl⟩, by decide, by decide⟩
  | cons item rest ih =>
    cases item with
    | opened => simpa [streamTaskMessages] using ih
    | message ev =>
      obtain ⟨⟨ms, hms⟩, h1, h2⟩ := ih
      refine ⟨⟨.analysisEvent ev :: ms, ?_⟩, ?_, ?_⟩
      · simp only [streamTaskMessages, hms, List.cons_append]
      · simpa [streamTaskMessages, countStreamEnded, isStreamEnded] using h1
      · simpa [streamTaskMessages, countStreamEnded, isStreamEnded] using h2
    | malformed e =>
      refine ⟨⟨[.analysisStreamEnded (some ("Parse error: " ++ e))], rfl⟩, ?_, ?_⟩
      · simp [streamTaskMessages, countStreamEnded, isStreamEnded]
      · simp [streamTaskMessages, countStreamEnded, isStreamEnded]
    | transportErr e =>
      by_cases h : isNormalEnd e
      · refine ⟨⟨[.analysisStreamEnded none], ?_⟩, ?_, ?_⟩
        · unfold streamTaskMessages
          rw [if_pos h]
          rfl
        · unfold streamTaskMessages
          rw [if_pos h]
          simp [countStreamEnded, isStreamEnded]
        · unfold streamTaskMessages
          rw [if_pos h]
          simp [countStreamEnded, isStreamEnded]
      · refine ⟨⟨[.analysisStreamEnded (some e)], ?_⟩, ?_, ?_⟩
        · unfold streamTaskMessages
          rw [if_neg h]
          rfl
        · unfold streamTaskMessages
          rw [if_neg h]
          simp [countStreamEnded, isStreamEnded]
        · unfold streamTaskMessages
          rw [if_neg h]
          simp [countStreamEnded, isStreamEnded]

/-- Counterexample to C1: a stream that terminates with a transport error
(`"connection reset by peer"`, not a normal-end message) enqueues **two**
`AnalysisStreamEnded` messages — `Some(err)` at the `break`, then the
unconditional `None` after the loop — not exactly one.  Even a clean
transport-level end-of-stream enqueues two (`None` twice). -/
theorem c1_stream_ended_counterexample :
    countStreamEnded (streamTaskMessages [.transportErr "connection reset by peer"]) = 2
    ∧ streamEndedPayloads (streamTaskMessages [.transportErr "connection reset by peer"])
      = [some "connection reset by peer", none]
    ∧ countStreamEnded (streamTaskMessages [.transportErr "unexpected end of stream"]) = 2
    ∧ streamEndedPayloads (streamTaskMessages [.transportErr "unexpected end of stream"])
      = [none, none] := by
  refine ⟨by decide, by decide, by decide, by decide⟩

/-- Whether a stream item terminates the read loop with a `break`
(a malformed payload or a transport-level error item). -/
def isErrorItem : StreamItem → Bool
  | .malformed _ => true
  | .transportErr _ => true
  | _ => false

/-- A stream fragment free of loop-terminating error items. -/
def noErrorItem (items : List StreamItem) : Bool :=
  items.all fun item => !isErrorItem item

/-- The `AnalysisStreamEnded` count is the number of collected payloads. -/
theorem countStreamEnded_eq_payload_length (msgs : List BackgroundMessage) :
    countStreamEnded msgs = (streamEndedPayloads msgs).length := by
  induction msgs with
  | nil => rfl
  | cons m rest ih =>
    cases m with
    | listRefreshComplete r =>
      simpa [countStreamEnded, streamEndedPayloads, isStreamEnded, List.filter] using ih
    | detailRefreshComplete r =>
      simpa [countStreamEnded, streamEndedPayloads, isStreamEnded, List.filter] using ih
    | analysisEvent e =>
      simpa [countStreamEnded, streamEndedPayloads, isStreamEnded, List.filter] using ih
    | analysisStreamEnded o =>
      simpa [countStreamEnded, streamEndedPayloads, isStreamEnded, List.filter] using ih

/-- The messages the loop forwards while consuming an error-free stream
fragment: one `AnalysisEvent` per parsed message, nothing for `Open`. -/
def forwardedEvents : List StreamItem → List BackgroundMessage
  | [] => []
  | .opened :: rest => forwardedEvents rest
  | .message ev :: rest => .analysisEvent ev :: forwardedEvents rest
  | .malformed _ :: _ => []
  | .transportErr _ :: _ => []

/-- Over an error-free prefix the stream task just forwards events and
continues with the remaining items. -/
theorem streamTask_forward (pre : List StreamItem) (h : noErrorItem pre = true) :
    ∀ tail, streamTaskMessages (pre ++ tail)
      = forwardedEvents pre ++ streamTaskMessages tail := by
  induction pre with
  | nil => intro tail; rfl
  | cons item rest ih =>
    intro tail
    cases item with
    | opened =>
      have h2 : noErrorItem rest = true := by
        simpa [noErrorItem, isErrorItem] using h
      simpa [streamTaskMessages, forwardedEvents] using ih h2 tail
    | message ev =>
      have h2 : noErrorItem rest = true := by
        simpa [noErrorItem, isErrorItem] using h
      simp [streamTaskMessages, forwardedEvents, ih h2 tail]
    | malformed e => simp [noErrorItem, isErrorItem] at h
    | transportErr e => simp [noErrorItem, isErrorItem] at h

/-- Forwarded events contribute no `AnalysisStreamEnded` payloads. -/
theorem streamEndedPayloads_forward (pre : List StreamItem)
    (h : noErrorItem pre = true) (msgs : List BackgroundMessage) :
    streamEndedPayloads (forwardedEvents pre ++ msgs) = streamEndedPayloads msgs := by
  induction pre with
  | nil => rfl
  | cons item rest ih =>
    cases item with
    | opened =>
      have h2 : noErrorItem rest = true := by
        simpa [noErrorItem, isErrorItem] using h
      simpa [forwardedEvents] using ih h2
    | message ev =>
      have h2 : noErrorItem rest = true := by
        simpa [noErrorItem, isErrorItem] using h
      simpa [forwardedEvents, streamEndedPayloads] using ih h2
    | malformed e => simp [noErrorItem, isErrorItem] at h
    | transportErr e => simp [noErrorItem, isErrorItem] at h

/-- C1 (amended): upon stream termination the task enqueues at least one
and at most two terminal `AnalysisStreamEnded` messages, the final one
always `None`, with a complete case split over every stream: when the item
stream is exhausted without an error item, exactly one (`None`); when the
first error item — after any error-free run of opens and parsed messages —
is a malformed payload, exactly two, `Some("Parse error: …")` then `None`;
when it is a transport error, exactly two, `Some(cause)` then `None` for
an abnormal error and `None` twice for a normal end-of-stream error.  In
both `break` cases the task stops reading: items after the error item
never influence the output. -/
theorem c1_stream_ended_amended (items : List StreamItem) :
    (noErrorItem items = true →
        streamEndedPayloads (streamTaskMessages items) = [none]
        ∧ countStreamEnded (streamTaskMessages items) = 1)
    ∧ (∀ pre e rest, noErrorItem pre = true →
        streamTaskMessages (pre ++ .malformed e :: rest)
          = streamTaskMessages (pre ++ [.malformed e])
        ∧ streamEndedPayloads (streamTaskMessages (pre ++ .malformed e :: rest))
          = [some ("Parse error: " ++ e), none]
        ∧ countStreamEnded (streamTaskMessages (pre ++ .malformed e :: rest)) = 2)
    ∧ (∀ pre e rest, noErrorItem pre = true →
        streamTaskMessages (pre ++ .transportErr e :: rest)
          = streamTaskMessages (pre ++ [.transportErr e])
        ∧ streamEndedPayloads (streamTaskMessages (pre ++ .transportErr e :: rest))
          = (if isNormalEnd e then [none, none] else [some e, none])
        ∧ countStreamEnded (streamTaskMessages (pre ++ .transportErr e :: rest)) = 2)
    ∧ (∃ ms, streamTaskMessages items = ms ++ [.analysisStreamEnded none])
    ∧ 1 ≤ countStreamEnded (streamTaskMessages items)
    ∧ countStreamEnded (streamTaskMessages items) ≤ 2 := by
  obtain ⟨h1, h2, h3⟩ := streamTask_shape items
  refine ⟨?_, ?_, ?_, h1, h2, h3⟩
  · intro h
    have hf := streamTask_forward items h []
    rw [List.append_nil] at hf
    constructor
    · rw [hf, streamEndedPayloads_forward items h]
      rfl
    · rw [countStreamEnded_eq_payload_length, hf, streamEndedPayloads_forward items h]
      rfl
  · intro pre e rest h
    have hf1 := streamTask_forward pre h (.malformed e :: rest)
    have hf2 := streamTask_forward pre h [.malformed e]
    refine ⟨?_, ?_, ?_⟩
    · rw [hf1, hf2]
      rfl
    · rw [hf1, streamEndedPayloads_forward pre h]
      rfl
    · rw [countStreamEnded_eq_payload_length, hf1, streamEndedPayloads_forward pre h]
      rfl
  · intro pre e rest h
    have hf1 := streamTask_forward pre h (.transportErr e :: rest)
    have hf2 := streamTask_forward pre h [.transportErr e]
    have hpay : streamEndedPayloads (streamTaskMessages (.transportErr e :: rest))
        = (if isNormalEnd e then [none, none] else [some e, none]) := by
      unfold streamTaskMessages
      by_cases hn : isNormalEnd e
      · rw [if_pos hn, if_pos hn]
        rfl
      · rw [if_neg hn, if_neg hn]
        rfl
    refine ⟨?_, ?_, ?_⟩
    · rw [hf1, hf2]
      rfl
    · rw [hf1, streamEndedPayloads_forward pre h]
      exact hpay
    · rw [countStreamEnded_eq_payload_length, hf1, streamEndedPayloads_forward pre h,
        hpay]
      by_cases hn : isNormalEnd e
      · rw [if_pos hn]
        rfl
      · rw [if_neg hn]
        rfl

/-- Witness for `c1_stream_ended_amended`: a concrete error-free stream
yields exactly one terminal `None`; with events preceding the error item, a
malformed payload stops the reading and a transport error yields the
`Some(cause)`-then-`None` pair. -/
theorem c1_stream_ended_amended_witness :
    (streamEndedPayloads (streamTaskMessages [.opened, .message .thinking]) = [none]
      ∧ countStreamEnded (streamTaskMessages [.opened, .message .thinking]) = 1)
    ∧ streamTaskMessages ([.message .thinking] ++ .malformed "bad json" :: [.opened])
      = streamTaskMessages ([.message .thinking] ++ [.malformed "bad json"])
    ∧ streamEndedPayloads
        (streamTaskMessages ([.message .thinking] ++ .transportErr "connection reset" :: [.opened]))
      = (if isNormalEnd "connection reset" then [none, none]
         else [some "connection reset", none])
    ∧ countStreamEnded
        (streamTaskMessages ([.message .thinking] ++ .transportErr "connection reset" :: [.opened]))
      = 2 := by
  refine ⟨?_, ?_, ?_, ?_⟩
  · exact (c1_stream_ended_amended [.opened, .message .thinking]).1 (by decide)
  · exact ((c1_stream_ended_amended []).2.1 [.message .thinking] "bad json" [.opened]
      (by decide)).1
  · exact ((c1_stream_ended_amended []).2.2.1 [.message .thinking] "connection reset"
      [.opened] (by decide)).2.1
  · exact ((c1_stream_ended_amended []).2.2.1 [.message .thinking] "connection reset"
      [.opened] (by decide)).2.2

/-! ## C3 — the screen state machine -/

mutual

/-- Whether an event is, or (through `Backfill` nesting) contains, a
`Complete` event — the only reducer path that changes the screen. -/
def containsComplete : AnalysisEvent → Bool
  | .backfill events => containsCompleteList events
  | .complete _ => true
  | _ => false

def containsCompleteList : List AnalysisEvent → Bool
  | [] => false
  | e :: es => containsComplete e || containsCompleteList es

end

/-- Whether an operation delivers an analysis event containing `Complete`. -/
def opDeliversComplete : Op → Bool
  | .msg (.analysisEvent e) => containsComplete e
  | _ => false

/-- `flush_text_buffer` never changes the screen. -/
theorem flush_text_buffer_screen (s : AppState) :
    (flush_text_buffer s).screen = s.screen := by
  obtain ⟨t, ht⟩ := flush_text_buffer_spec s
  rw [ht]

/-- The reducer leaves the screen unchanged unless the event contains a
`Complete`, in which case the screen afterwards is `Proposal`. -/
theorem handle_event_screen (s : AppState) (e : AnalysisEvent) :
    (handle_analysis_event s e).screen = s.screen
    ∨ ((handle_analysis_event s e).screen = .proposal ∧ containsComplete e = true) := by
  refine handle_analysis_event.induct
    (fun s e => (handle_analysis_event s e).screen = s.screen
      ∨ ((handle_analysis_event s e).screen = .proposal ∧ containsComplete e = true))
    (fun s es => (handleAnalysisEvents s es).screen = s.screen
      ∨ ((handleAnalysisEvents s es).screen = .proposal ∧ containsCompleteList es = true))
    ?_ ?_ ?_ ?_ ?_ ?_ ?_ ?_ ?_ ?_ ?_ ?_ ?_ s e
  · -- Backfill
    intro s events ih
    unfold handle_analysis_event
    exact ih
  · -- Thinking
    intro s
    unfold handle_analysis_event
    exact Or.inl rfl
  · -- TextDelta, flush branch
    intro s delta
    dsimp only
    intro h
    have hc : flushCondCode (s.current_text_buffer ++ delta) := by
      simpa [flushCondCode] using h
    rw [handle_textDelta_eq, if_pos hc]
    exact Or.inl (flush_text_buffer_screen _)
  · -- TextDelta, no-flush branch
    intro s delta
    dsimp only
    intro h
    have hc : ¬ flushCondCode (s.current_text_buffer ++ delta) := by
      simpa [flushCondCode] using h
    rw [handle_textDelta_eq, if_neg hc]
    exact Or.inl rfl
  · -- ToolStart
    intro s tool args
    unfold handle_analysis_event
    dsimp only
    exact Or.inl (flush_text_buffer_screen _)
  · -- ToolOutput, non-blank branch
    intro s output h
    unfold handle_analysis_event
    dsimp only
    rw [if_pos h]
    exact Or.inl rfl
  · -- ToolOutput, blank branch
    intro s output h
    unfold handle_analysis_event
    dsimp only
    rw [if_neg h]
    exact Or.inl rfl
  · -- ToolEnd, error
    intro s tool
    unfold handle_analysis_event
    exact Or.inl rfl
  · -- ToolEnd, no error
    intro s tool is_error h
    unfold handle_analysis_event
    try dsimp only
    rw [if_neg h]
    exact Or.inl rfl
  · -- Complete
    intro s proposal
    unfold handle_analysis_event
    try dsimp only
    exact Or.inr ⟨rfl, rfl⟩
  · -- Error
    intro s message
    unfold handle_analysis_event
    dsimp only
    exact Or.inl (flush_text_buffer_screen _)
  · -- list: nil
    intro s
    unfold handleAnalysisEvents
    exact Or.inl rfl
  · -- list: cons
    intro s e es ih1 ih2
    unfold handleAnalysisEvents
    rcases ih2 with h2 | ⟨h2, hc2⟩
    · rw [h2]
      rcases ih1 with h1 | ⟨h1, hc1⟩
      · exact Or.inl h1
      · exact Or.inr ⟨h1, by simp [containsCompleteList, hc1]⟩
    · exact Or.inr ⟨h2, by simp [containsCompleteList, hc2]⟩

/-- `start_refresh` never changes the screen. -/
theorem start_refresh_screen (s : AppState) :
    (start_refresh s).1.screen = s.screen := by
  unfold start_refresh
  split <;> rfl

/-- `start_detail_refresh` never changes the screen. -/
theorem start_detail_refresh_screen (s : AppState) :
    (start_detail_refresh s).1.screen = s.screen := by
  unfold start_detail_refresh
  split
  · rfl
  · split <;> rfl

/-- `load_cached_detail` never changes the screen. -/
theorem load_cached_detail_screen (s : AppState) (r : Except String IssueDetail) :
    (load_cached_detail s r).1.screen = s.screen := by
  unfold load_cached_detail start_analysis_stream
  split
  · rfl
  · split
    · split
      · dsimp only
        split <;> rfl
      all_goals rfl
    · rfl

/-- `step_message` changes the screen only when the message is an analysis
event containing `Complete`, and then only to `Proposal`. -/
theorem step_message_screen (s : AppState) (m : BackgroundMessage) :
    (step_message s m).screen = s.screen
    ∨ ((step_message s m).screen = .proposal
        ∧ opDeliversComplete (.msg m) = true) := by
  cases m with
  | listRefreshComplete result =>
    refine Or.inl ?_
    cases result with
    | ok r =>
      show (AppState.clamp_selection _).screen = s.screen
      unfold AppState.clamp_selection
      split <;> rfl
    | error e => rfl
  | detailRefreshComplete result => cases result <;> exact Or.inl rfl
  | analysisEvent e => exact handle_event_screen s e
  | analysisStreamEnded err => cases err <;> exact Or.inl rfl

/-- A detail payload in `Analyzing` state for the stale-stream scenario. -/
def analyzingDetail : IssueDetail :=
  IssueDetail.mk "12345" "sentry" "analyzing" emptySource (.analyzing "s1") "t0" "t1"

/-- The stale-stream scenario: load the list, open the issue (its detail is
`Analyzing`, so the SSE stream is connected), go back to the list, then the
stream `Complete` event arrives. -/
def staleCompleteOps : List Op :=
  [.msg (.listRefreshComplete (.ok (ListIssuesResponse.mk [sampleIssue] 1 50 0))),
   .openIssue (.ok analyzingDetail),
   .backToList]

/-- Counterexample to C3: running the stale-stream scenario from the start
state leaves the screen on `List` with the analysis stream still live;
processing the stream `Complete` event then moves the screen directly
from `List` to `Proposal` — the `Complete` arm assigns the screen
unconditionally, without checking that the user is still in the analysis
flow. -/
theorem c3_screen_counterexample :
    (runOps AppState.default staleCompleteOps).screen = .list
    ∧ (runOps AppState.default staleCompleteOps).is_streaming_analysis = true
    ∧ (runOps AppState.default
        (staleCompleteOps ++ [.msg (.analysisEvent (.complete "p"))])).screen
      = .proposal := by
  refine ⟨by decide, by decide, by decide⟩

/-- C3 (amended): from the `List` screen no single operation or background
message can move the screen to `Analysis`; the screen can leave `List` for
`Proposal` only when the processed operation is the delivery of an analysis
event containing `Complete` (a stale stream surviving navigation) — all
other operations and messages leave `List` only for `Detail` or keep it. -/
theorem c3_screen_transitions_from_list (s : AppState) (op : Op)
    (h : s.screen = .list) :
    (step s op).1.screen ≠ .analysis
    ∧ ((step s op).1.screen = .proposal → opDeliversComplete op = true) := by
  cases op with
  | moveSelection delta =>
    simp only [step]
    rw [if_pos h]
    unfold move_selection
    constructor
    · split <;> simp [h]
    · split <;> simp [h]
  | jumpToTop =>
    simp only [step]
    rw [if_pos h]
    exact ⟨by simp [jump_to_top, h], by simp [jump_to_top, h]⟩
  | jumpToBottom =>
    simp only [step]
    rw [if_pos h]
    unfold jump_to_bottom
    constructor
    · split <;> simp [h]
    · split <;> simp [h]
  | refresh =>
    simp only [step]
    rw [if_pos h]
    rw [start_refresh_screen, h]
    exact ⟨by simp, by simp⟩
  | analyzeFromList analyzeResult =>
    simp only [step]
    rw [if_pos h]
    unfold analyze_issue_from_list
    constructor
    · split
      · simp [h]
      · split
        · rw [start_refresh_screen, h]
          simp
        · simp [h]
    · split
      · simp [h]
      · split
        · rw [start_refresh_screen, h]
          simp
        · simp [h]
  | openIssue detailResult =>
    simp only [step]
    rw [if_pos h]
    have hs : (start_detail_refresh (load_cached_detail (open_selected s) detailResult).1).1.screen
        = (open_selected s).screen := by
      rw [start_detail_refresh_screen, load_cached_detail_screen]
    have ho : (open_selected s).screen = .list ∨ (open_selected s).screen = .detail := by
      unfold open_selected
      split
      · exact Or.inl h
      · exact Or.inr rfl
    constructor
    · show (start_detail_refresh (load_cached_detail (open_selected s) detailResult).1).1.screen
        ≠ Screen.analysis
      rw [hs]
      rcases ho with h1 | h1 <;> simp [h1]
    · show (start_detail_refresh (load_cached_detail (open_selected s) detailResult).1).1.screen
        = Screen.proposal → _
      rw [hs]
      rcases ho with h1 | h1 <;> simp [h1]
  | backToList =>
    simp only [step]
    rw [if_neg (by simp [h])]
    exact ⟨by simp [h], by simp [h]⟩
  | scrollDetail delta =>
    simp only [step]
    rw [if_neg (by simp [h])]
    exact ⟨by simp [h], by simp [h]⟩
  | refreshDetail =>
    simp only [step]
    rw [if_neg (by simp [h])]
    exact ⟨by simp [h], by simp [h]⟩
  | interactivePi refreshResult =>
    simp only [step]
    rw [if_neg (by simp [h])]
    exact ⟨by simp [h], by simp [h]⟩
  | enterFromDetail =>
    simp only [step]
    rw [if_neg (by simp [h])]
    exact ⟨by simp [h], by simp [h]⟩
  | analyzeFromDetail analyzeResult refreshResult =>
    simp only [step]
    rw [if_neg (by simp [h])]
    exact ⟨by simp [h], by simp [h]⟩
  | completeReview actionResult refreshResult =>
    simp only [step]
    rw [if_neg (by simp [h])]
    exact ⟨by simp [h], by simp [h]⟩
  | retryError actionResult refreshResult =>
    simp only [step]
    rw [if_neg (by simp [h])]
    exact ⟨by simp [h], by simp [h]⟩
  | backToDetail refreshResult =>
    simp only [step]
    rw [if_neg (by simp [h])]
    exact ⟨by simp [h], by simp [h]⟩
  | scrollAnalysis delta =>
    simp only [step]
    rw [if_neg (by simp [h])]
    exact ⟨by simp [h], by simp [h]⟩
  | backFromProposal =>
    simp only [step]
    rw [if_neg (by simp [h])]
    exact ⟨by simp [h], by simp [h]⟩
  | scrollProposal delta =>
    simp only [step]
    rw [if_neg (by simp [h])]
    exact ⟨by simp [h], by simp [h]⟩
  | approveProposal actionResult refreshResult =>
    simp only [step]
    rw [if_neg (by simp [h])]
    exact ⟨by simp [h], by simp [h]⟩
  | rejectProposal actionResult refreshResult =>
    simp only [step]
    rw [if_neg (by simp [h])]
    exact ⟨by simp [h], by simp [h]⟩
  | msg m =>
    show (step_message s m).screen ≠ Screen.analysis
      ∧ ((step_message s m).screen = Screen.proposal → _)
    rcases step_message_screen s m with h1 | ⟨h1, h2⟩
    · rw [h1, h]
      exact ⟨by simp, by simp⟩
    · rw [h1]
      exact ⟨by simp, fun _ => h2⟩

/-- Witness for `c3_screen_transitions_from_list`: at the default state
(screen `List`), delivering a `Complete` analysis event cannot land on
`Analysis`, and landing on `Proposal` certifies the operation delivered a
`Complete`. -/
theorem c3_screen_transitions_witness :
    (step AppState.default (.msg (.analysisEvent (.complete "p")))).1.screen
      ≠ .analysis
    ∧ ((step AppState.default (.msg (.analysisEvent (.complete "p")))).1.screen
        = .proposal →
        opDeliversComplete (.msg (.analysisEvent (.complete "p"))) = true) :=
  c3_screen_transitions_from_list AppState.default
    (.msg (.analysisEvent (.complete "p"))) rfl

end Glass
